import Mathlib

/-!
# Verification of the qb-qualities quarterback analytics pipeline

A shallow embedding of the core analytics pipeline of the repository
(`src/data/data_processing.py` and `home.py`): context metrics per team,
play normalization (left joins, 150-dropback qualification, clutch flag,
adjusted EPA), and the aggregation views, together with theorems settling
the specification's claims about them.

A pandas DataFrame of play records is embedded as a `List Play`; nullable
columns become `Option` fields; a `groupby` over a key becomes a filter by
that key, and a group exists exactly when its filter is nonempty (pandas
creates no group for an absent key and drops null keys); a left merge
becomes an `Option`-valued lookup; pandas `mean`/`sum`/`count` aggregates
skip null values, embedded as aggregation over `filterMap`.
-/

set_option maxRecDepth 100000

namespace QBQ

instance {ε α : Type} [DecidableEq ε] [DecidableEq α] : DecidableEq (Except ε α) :=
  fun a b =>
    match a, b with
    | .ok x, .ok y => decidable_of_iff (x = y) (by simp)
    | .error e, .error f => decidable_of_iff (e = f) (by simp)
    | .ok _, .error _ => isFalse (by simp)
    | .error _, .ok _ => isFalse (by simp)

/-- One dropback play record, as filtered from play-by-play data by
`qb_dropback == 1`. Team identities and the passer name are nullable
columns; `epa`, `ydstogo`, `down`, `game_seconds_remaining` and
`score_differential` are always present on a dropback row. -/
structure Play where
  season : Int
  posteam : Option String
  defteam : Option String
  passer_player_name : Option String
  down : Int
  ydstogo : Int
  game_seconds_remaining : Int
  score_differential : Int
  epa : Rat
  success : Bool
  qb_hit : Bool
  sack : Bool
  yards_gained : Rat
  air_yards : Option Rat
  cpoe : Option Rat
  touchdown : Bool
  interception : Bool
  deriving DecidableEq, Repr

/-- Mean of a list of rationals (pandas `mean` over a non-null column). -/
def ratMean (l : List Rat) : Rat := l.sum / l.length

/-- Mean over a nullable column: pandas skips nulls and yields NaN (here
`none`) when no value is present. -/
def optMean (l : List (Option Rat)) : Option Rat :=
  let d := l.filterMap id
  if d.isEmpty then none else some (ratMean d)

/-- Defensive context metric for one `(season, defteam)` group
(`def_metrics` in `fetch_qb_pbp_data`). -/
structure DefMetrics where
  def_epa_per_dropback : Rat
  def_success_rate_allowed : Rat
  def_pressure_rate : Rat
  def_dropbacks : Nat
  deriving DecidableEq, Repr

/-- Offensive-line proxy metric for one `(season, posteam)` group
(`ol_metrics` in `fetch_qb_pbp_data`). -/
structure OLMetrics where
  pressures_allowed : Nat
  sacks_allowed : Nat
  dropbacks : Nat
  pressure_rate : Rat
  sack_rate : Rat
  deriving DecidableEq, Repr

/-- The dropbacks faced by `team`'s defense in `season`:
`dropbacks.groupby(['season', 'defteam'])` membership. -/
def defGroup (plays : List Play) (season : Int) (team : String) : List Play :=
  plays.filter (fun p => p.season == season && p.defteam == some team)

/-- The dropbacks of `team`'s offense in `season`:
`dropbacks.groupby(['season', 'posteam'])` membership. -/
def olGroup (plays : List Play) (season : Int) (team : String) : List Play :=
  plays.filter (fun p => p.season == season && p.posteam == some team)

/-- The defensive context mapping: `none` exactly when the team has no
dropback faced in the season (pandas groupby creates no such group). -/
def defMetricsFor (plays : List Play) (season : Int) (team : String) : Option DefMetrics :=
  let g := defGroup plays season team
  if g.isEmpty then none else
    some
      { def_epa_per_dropback := ratMean (g.map (·.epa))
        def_success_rate_allowed := ((g.filter (·.success)).length : Rat) / (g.length : Rat)
        def_pressure_rate := ((g.filter (·.qb_hit)).length : Rat) / (g.length : Rat)
        def_dropbacks := g.length }

/-- The offensive-line context mapping: `none` exactly when the team has no
offensive dropback in the season. -/
def olMetricsFor (plays : List Play) (season : Int) (team : String) : Option OLMetrics :=
  let g := olGroup plays season team
  if g.isEmpty then none else
    some
      { pressures_allowed := (g.filter (·.qb_hit)).length
        sacks_allowed := (g.filter (·.sack)).length
        dropbacks := g.length
        pressure_rate := ((g.filter (·.qb_hit)).length : Rat) / (g.length : Rat)
        sack_rate := ((g.filter (·.sack)).length : Rat) / (g.length : Rat) }

/-- The left merge `dropbacks.merge(def_metrics, on=['season','defteam'],
how='left')` seen from one play: its defensive context columns. A play with
a null `defteam` matches no group and carries missing context. -/
def defLookup (plays : List Play) (p : Play) : Option DefMetrics :=
  p.defteam.bind (defMetricsFor plays p.season)

/-- The left merge of `ol_metrics` on `['season','posteam']` seen from one
play: its offensive-line context columns. -/
def olLookup (plays : List Play) (p : Play) : Option OLMetrics :=
  p.posteam.bind (olMetricsFor plays p.season)

/-- The qualification threshold `min_dropbacks = 150`. -/
def min_dropbacks : Nat := 150

/-- Size of the `(season, passer_player_name)` group of the play table:
`dropbacks.groupby(['season','passer_player_name']).size()` at one key. -/
def qbDropbackCount (plays : List Play) (season : Int) (name : String) : Nat :=
  (plays.filter (fun p => p.season == season && p.passer_player_name == some name)).length

/-- Membership in `true_qbs`: the passer names whose dropback count reaches
`min_dropbacks` in some `(season, passer)` group of the table. -/
def isTrueQB (plays : List Play) (name : String) : Bool :=
  plays.any (fun p =>
    p.passer_player_name == some name
      && decide (min_dropbacks ≤ qbDropbackCount plays p.season name))

/-- The normalized table `dropbacks_true_qbs`: the plays whose passer is in `true_qbs`
(`dropbacks['passer_player_name'].isin(true_qbs)`; a null passer matches
nothing). -/
def normalizedPlays (plays : List Play) : List Play :=
  plays.filter (fun p =>
    match p.passer_player_name with
    | some n => isTrueQB plays n
    | none => false)

/-- The `clutch_situation` column: 3rd/4th down, 7+ yards to go, last five
minutes, score within 7 points. -/
def clutch_situation (p : Play) : Bool :=
  (p.down == 3 || p.down == 4)
    && decide (7 ≤ p.ydstogo)
    && decide (p.game_seconds_remaining ≤ 300)
    && decide (p.score_differential.natAbs ≤ 7)

/-- The `adj_epa` column:
`(epa - def_epa_per_dropback) / (1 + pressure_rate)`, missing (pandas NaN)
when either merged context column is missing. -/
def adj_epa (plays : List Play) (p : Play) : Option Rat :=
  match defLookup plays p, olLookup plays p with
  | some d, some o => some ((p.epa - d.def_epa_per_dropback) / (1 + o.pressure_rate))
  | _, _ => none

/-- The distinct `(season, passer_player_name)` group keys of a play table
(rows with a null passer belong to no group). -/
def seasonPasserKeys (l : List Play) : List (Int × String) :=
  (l.filterMap (fun p => p.passer_player_name.map (fun n => (p.season, n)))).dedup

/-- The `(season, passer)` group of a play table at one key. -/
def passerGroup (l : List Play) (season : Int) (name : String) : List Play :=
  l.filter (fun p => p.season == season && p.passer_player_name == some name)

/-- The passer-only group of a play table (home.py groups the clutch
partitions by `passer_player_name` alone). -/
def passerAll (l : List Play) (name : String) : List Play :=
  l.filter (fun p => p.passer_player_name == some name)

/-- One row of the season-EPA summary `qb_adj` (before the clutch merge of
home.py). Averages of merged context columns are pandas means that skip
missing values, hence `Option`-valued. -/
structure QBSummary where
  season : Int
  passer_player_name : String
  dropbacks : Nat
  total_epa : Rat
  avg_epa_per_dropback : Rat
  avg_def_epa_allowed : Option Rat
  avg_def_success_rate_allowed : Option Rat
  avg_def_pressure_rate : Option Rat
  avg_ol_pressure_rate_allowed : Option Rat
  avg_ol_sack_rate_allowed : Option Rat
  epa_vs_expectation : Option Rat
  epa_vs_def_and_ol : Option Rat
  deriving DecidableEq, Repr

/-- The season-EPA summary row at one `(season, passer)` key of the
normalized table `ntab`, over the full play table `plays` (the context
columns were merged from `plays`). -/
def mkSummary (plays ntab : List Play) (k : Int × String) : QBSummary :=
  let g := passerGroup ntab k.1 k.2
  let avgEpa := ratMean (g.map (·.epa))
  let avgDef := optMean (g.map (fun p => (defLookup plays p).map (·.def_epa_per_dropback)))
  let avgOlPr := optMean (g.map (fun p => (olLookup plays p).map (·.pressure_rate)))
  let evse := avgDef.map (fun d => avgEpa - d)
  { season := k.1
    passer_player_name := k.2
    dropbacks := g.length
    total_epa := (g.map (·.epa)).sum
    avg_epa_per_dropback := avgEpa
    avg_def_epa_allowed := avgDef
    avg_def_success_rate_allowed :=
      optMean (g.map (fun p => (defLookup plays p).map (·.def_success_rate_allowed)))
    avg_def_pressure_rate :=
      optMean (g.map (fun p => (defLookup plays p).map (·.def_pressure_rate)))
    avg_ol_pressure_rate_allowed := avgOlPr
    avg_ol_sack_rate_allowed :=
      optMean (g.map (fun p => (olLookup plays p).map (·.sack_rate)))
    epa_vs_expectation := evse
    epa_vs_def_and_ol :=
      match evse, avgOlPr with
      | some e, some r => some (e / (1 + r))
      | _, _ => none }

/-- The season-EPA view `fetch_all_qb_pbp_epa`. Raises (`Except.error`)
when the normalized table is empty, then keeps only rows with at least 200
dropbacks. -/
def fetch_all_qb_pbp_epa (plays : List Play) : Except String (List QBSummary) :=
  let ntab := normalizedPlays plays
  if ntab.isEmpty then .error "No data found for season." else
    .ok (((seasonPasserKeys ntab).map (mkSummary plays ntab)).filter
      (fun r => decide (200 ≤ r.dropbacks)))

/-- The clutch partition of a passer's plays
(`dropbacks_true_qbs[dropbacks_true_qbs['clutch_situation']].groupby('passer_player_name')`). -/
def clutchGroup (ntab : List Play) (name : String) : List Play :=
  (passerAll ntab name).filter clutch_situation

/-- The non-clutch partition of a passer's plays. -/
def nonClutchGroup (ntab : List Play) (name : String) : List Play :=
  (passerAll ntab name).filter (fun p => !clutch_situation p)

/-- Result of `agg(['mean','sum','count'])` over the nullable `adj_epa` column of one
partition group: pandas `mean` is missing when no value is present, `sum`
of no values is 0 and `count` counts the present values. -/
structure PartitionAgg where
  avg : Option Rat
  total : Rat
  count : Nat
  deriving DecidableEq, Repr

/-- Aggregate a nullable column (`mean`, `sum`, `count` skip nulls). -/
def partitionAgg (vals : List (Option Rat)) : PartitionAgg :=
  let d := vals.filterMap id
  { avg := if d.isEmpty then none else some (ratMean d)
    total := d.sum
    count := d.length }

/-- The aggregate `clutch_stats` of home.py seen from one passer: `none` when the passer
has no clutch play (pandas has no group, and the later left merge leaves
the columns missing). -/
def clutchStats (plays ntab : List Play) (name : String) : Option PartitionAgg :=
  let g := clutchGroup ntab name
  if g.isEmpty then none else some (partitionAgg (g.map (adj_epa plays)))

/-- The aggregate `non_clutch_stats` of home.py seen from one passer. -/
def nonClutchStats (plays ntab : List Play) (name : String) : Option PartitionAgg :=
  let g := nonClutchGroup ntab name
  if g.isEmpty then none else some (partitionAgg (g.map (adj_epa plays)))

/-- One row of home.py's `qb_adj` after the clutch/non-clutch left merges
and the difference column. -/
structure QBAdjRow where
  base : QBSummary
  clutch_avg_adj_epa : Option Rat
  clutch_total_adj_epa : Option Rat
  clutch_plays : Option Nat
  non_clutch_avg_adj_epa : Option Rat
  non_clutch_total_adj_epa : Option Rat
  non_clutch_plays : Option Nat
  clutch_vs_non_clutch_adj_diff : Option Rat
  deriving DecidableEq, Repr

/-- Build home.py's `qb_adj` row at one `(season, passer)` key: the summary
columns plus the left-merged partition aggregates and their difference
(missing whenever either side is missing, as NaN propagates). -/
def mkAdjRow (plays ntab : List Play) (k : Int × String) : QBAdjRow :=
  let c := clutchStats plays ntab k.2
  let nc := nonClutchStats plays ntab k.2
  let cAvg := c.bind (·.avg)
  let ncAvg := nc.bind (·.avg)
  { base := mkSummary plays ntab k
    clutch_avg_adj_epa := cAvg
    clutch_total_adj_epa := c.map (·.total)
    clutch_plays := c.map (·.count)
    non_clutch_avg_adj_epa := ncAvg
    non_clutch_total_adj_epa := nc.map (·.total)
    non_clutch_plays := nc.map (·.count)
    clutch_vs_non_clutch_adj_diff :=
      match cAvg, ncAvg with
      | some a, some b => some (a - b)
      | _, _ => none }

/-- The view `fetch_qb_adj_data` of home.py: the season-EPA summary with the clutch
split merged on, then the 200-dropback retention filter (home.py performs
no empty-input check). -/
def fetch_qb_adj_data (plays : List Play) : List QBAdjRow :=
  let ntab := normalizedPlays plays
  ((seasonPasserKeys ntab).map (mkAdjRow plays ntab)).filter
    (fun r => decide (200 ≤ r.base.dropbacks))

/-- The advanced-stat aggregate columns of `fetch_adv_qb_pbp_stats` over
one group of plays (every column mean skips missing values: `cpoe`,
`air_yards`, `adj_epa` and the merged `pressure_rate` are nullable). -/
structure AdvAgg where
  avg_cpoe : Option Rat
  avg_adj_epa : Option Rat
  avg_pass_yards : Option Rat
  avg_air_yards : Option Rat
  avg_pressure_rate : Option Rat
  deriving DecidableEq, Repr

/-- Aggregate the advanced-stat columns over a group of plays. -/
def advAgg (plays g : List Play) : AdvAgg :=
  { avg_cpoe := optMean (g.map (·.cpoe))
    avg_adj_epa := optMean (g.map (adj_epa plays))
    avg_pass_yards := optMean (g.map (fun p => some p.yards_gained))
    avg_air_yards := optMean (g.map (·.air_yards))
    avg_pressure_rate := optMean (g.map (fun p => (olLookup plays p).map (·.pressure_rate))) }

/-- One row of `adv_qb_stats` after the clutch and non-clutch left merges:
a passer absent from a partition carries missing columns for it. -/
structure AdvRow where
  season : Int
  passer_player_name : String
  overall : AdvAgg
  clutch : Option AdvAgg
  non_clutch : Option AdvAgg
  deriving DecidableEq, Repr

/-- Build the advanced-stats row at one `(season, passer)` key. -/
def mkAdvRow (plays ntab : List Play) (k : Int × String) : AdvRow :=
  let cg := clutchGroup ntab k.2
  let ng := nonClutchGroup ntab k.2
  { season := k.1
    passer_player_name := k.2
    overall := advAgg plays (passerGroup ntab k.1 k.2)
    clutch := if cg.isEmpty then none else some (advAgg plays cg)
    non_clutch := if ng.isEmpty then none else some (advAgg plays ng) }

/-- The advanced-stats view `fetch_adv_qb_pbp_stats`: raises on an empty normalized table, then
returns the advanced-stats rows restricted to the named quarterback
(`adv_qb_stats[adv_qb_stats['passer_player_name'] == qb_name]`). -/
def fetch_adv_qb_pbp_stats (plays : List Play) (qb_name : String) :
    Except String (List AdvRow) :=
  let ntab := normalizedPlays plays
  if ntab.isEmpty then .error "No data found for season." else
    .ok (((seasonPasserKeys ntab).map (mkAdvRow plays ntab)).filter
      (fun r => r.passer_player_name == qb_name))

/-- One row of `qb_season_totals`. -/
structure QBTotalsRow where
  season : Int
  passer_player_name : String
  total_dropbacks : Nat
  total_epa : Rat
  total_yards : Rat
  total_air_yards : Rat
  mean_cpoe : Option Rat
  total_touchdowns : Nat
  total_interceptions : Nat
  mean_success_rate : Rat
  deriving DecidableEq, Repr

/-- Build the season-totals row at one `(season, passer)` key (sums over
nullable columns skip missing values). -/
def mkTotalsRow (ntab : List Play) (k : Int × String) : QBTotalsRow :=
  let g := passerGroup ntab k.1 k.2
  { season := k.1
    passer_player_name := k.2
    total_dropbacks := g.length
    total_epa := (g.map (·.epa)).sum
    total_yards := (g.map (·.yards_gained)).sum
    total_air_yards := (g.filterMap (·.air_yards)).sum
    mean_cpoe := optMean (g.map (·.cpoe))
    total_touchdowns := (g.filter (·.touchdown)).length
    total_interceptions := (g.filter (·.interception)).length
    mean_success_rate := ((g.filter (·.success)).length : Rat) / (g.length : Rat) }

/-- The totals view `fetch_all_qb_season_totals`: no empty-input check and no 200-dropback
filter; it maps every `(season, passer)` group of the normalized table to
one row. -/
def fetch_all_qb_season_totals (plays : List Play) : List QBTotalsRow :=
  let ntab := normalizedPlays plays
  (seasonPasserKeys ntab).map (mkTotalsRow ntab)

/-- One plotly bar trace of `make_all_qbs_epa_adj_chart`: the categories,
the values and the per-bar opacities (the only element the optional
quarterback name reaches). -/
structure BarTrace where
  ys : List String
  xs : List (Option Rat)
  opacity : List Rat
  deriving DecidableEq, Repr

/-- The sort `sort_values(by='avg_epa_per_dropback', ascending=True)`. -/
def sortByAvgEpa (rows : List QBSummary) : List QBSummary :=
  rows.mergeSort (fun a b => decide (a.avg_epa_per_dropback ≤ b.avg_epa_per_dropback))

/-- The opacity list `[1.0 if qb_name is None or name == qb_name else 0.5
for name in ...]`. -/
def highlightOpacity (names : List String) (qb_name : Option String) : List Rat :=
  names.map (fun n =>
    match qb_name with
    | none => 1
    | some q => if n == q then 1 else 1 / 2)

/-- The chart `make_all_qbs_epa_adj_chart`: the two bar traces built from the sorted
season-EPA summary, with the optional quarterback name used only for the
highlight opacities. -/
def make_all_qbs_epa_adj_chart (plays : List Play) (qb_name : Option String) :
    Except String (List BarTrace) :=
  (fetch_all_qb_pbp_epa plays).map (fun rows =>
    let sorted := sortByAvgEpa rows
    let names := sorted.map (·.passer_player_name)
    [ { ys := names
        xs := sorted.map (fun r => some r.avg_epa_per_dropback)
        opacity := highlightOpacity names qb_name }
    , { ys := names
        xs := sorted.map (·.epa_vs_def_and_ol)
        opacity := highlightOpacity names qb_name } ])

/-- The qualification count as §4.2 of the spec words it: only the passer's
plays that carry defined context values after the left joins are counted.
Stated for comparison with `qbDropbackCount`, which is what the code
computes. -/
def specQualCount (plays : List Play) (season : Int) (name : String) : Nat :=
  (plays.filter (fun p =>
    p.season == season && p.passer_player_name == some name
      && (defLookup plays p).isSome && (olLookup plays p).isSome)).length

/-! ## Concrete season data used by the witnesses and counterexamples -/

/-- A neutral non-clutch dropback: first and ten, mid-game, tied score,
zero epa, no hit, no sack. -/
def basePlay : Play :=
  { season := 2023, posteam := some "O", defteam := some "D"
    passer_player_name := some "A", down := 1, ydstogo := 10
    game_seconds_remaining := 1000, score_differential := 0, epa := 0
    success := false, qb_hit := false, sack := false, yards_gained := 0
    air_yards := none, cpoe := none, touchdown := false, interception := false }

/-- A season of 200 identical dropbacks by passer A: A qualifies (≥ 150)
and survives the 200-dropback retention filter. -/
def season200 : List Play := List.replicate 200 basePlay

/-- A season of 150 identical dropbacks by passer A: A qualifies (≥ 150)
but falls short of the 200-dropback retention filter. -/
def season150 : List Play := List.replicate 150 basePlay

/-- A clutch dropback by passer A: 3rd and 8, 100 seconds left, tied. -/
def clutchPlay : Play :=
  { basePlay with down := 3, ydstogo := 8, game_seconds_remaining := 100 }

/-- A dropback by passer A with a null defensive team: the left join finds
no defensive context for it. -/
def noCtxPlay : Play := { basePlay with defteam := none }

/-- The four context plays of the spec's §8 adjusted-epa scenario: one
season of team O against team D whose defensive epa-allowed mean is 0.1
and whose offensive pressure rate allowed is 0.25. -/
def sPlay1 : Play := { basePlay with epa := 1 / 2 }

/-- Second scenario play. -/
def sPlay2 : Play := { basePlay with epa := 1 / 5 }

/-- Third scenario play. -/
def sPlay3 : Play := { basePlay with epa := -3 / 10 }

/-- Fourth scenario play, the one hit allowed (pressure rate 1/4). -/
def sPlay4 : Play := { basePlay with qb_hit := true }

/-- The scenario season: mean epa against D is (0.5+0.2-0.3+0)/4 = 0.1 and
O's pressure rate allowed is 1/4 = 0.25. -/
def scenarioPlays : List Play := [sPlay1, sPlay2, sPlay3, sPlay4]

/-! ## Theorems -/

/-- C2: for every play, the clutch flag is true iff down is 3 or 4,
yards-to-go is at least 7, at most 300 game seconds remain and the
absolute score differential is at most 7; and the flag is a function of
exactly those four fields. -/
theorem clutch_flag_characterization (p q : Play) :
    (clutch_situation p = true ↔
      ((p.down = 3 ∨ p.down = 4) ∧ 7 ≤ p.ydstogo ∧ p.game_seconds_remaining ≤ 300
        ∧ |p.score_differential| ≤ 7))
    ∧ (p.down = q.down → p.ydstogo = q.ydstogo →
        p.game_seconds_remaining = q.game_seconds_remaining →
        p.score_differential = q.score_differential →
        clutch_situation p = clutch_situation q) := by
  constructor
  · simp only [clutch_situation, Bool.and_eq_true, Bool.or_eq_true, beq_iff_eq,
      decide_eq_true_eq, and_assoc]
    constructor
    · rintro ⟨h1, h2, h3, h4⟩
      exact ⟨h1, h2, h3, by rw [Int.abs_eq_natAbs]; exact_mod_cast h4⟩
    · rintro ⟨h1, h2, h3, h4⟩
      refine ⟨h1, h2, h3, ?_⟩
      rw [Int.abs_eq_natAbs] at h4
      exact_mod_cast h4
  · intro h1 h2 h3 h4
    simp only [clutch_situation, h1, h2, h3, h4]

/-- C3: whenever the left joins found both context entries for a play, its
adjusted epa is exactly (epa − defensive epa-allowed) divided by
(1 + offensive pressure rate allowed). -/
theorem adj_epa_formula (plays : List Play) (p : Play) (d : DefMetrics) (o : OLMetrics)
    (hd : defLookup plays p = some d) (ho : olLookup plays p = some o) :
    adj_epa plays p = some ((p.epa - d.def_epa_per_dropback) / (1 + o.pressure_rate)) := by
  unfold adj_epa
  rw [hd, ho]

/-- C3 witness, which is also the spec's §8 scenario: a play with epa 0.5
against a defense allowing 0.1 epa per dropback, behind a line allowing a
0.25 pressure rate, has adjusted epa exactly 0.32. -/
theorem adj_epa_formula_witness :
    adj_epa scenarioPlays sPlay1 = some (32 / 100) := by
  rw [adj_epa_formula scenarioPlays sPlay1 _ _ rfl rfl]
  congr 1
  show (sPlay1.epa - ratMean ((defGroup scenarioPlays sPlay1.season "D").map (·.epa)))
      / (1 + (((olGroup scenarioPlays sPlay1.season "O").filter (·.qb_hit)).length : Rat)
          / ((olGroup scenarioPlays sPlay1.season "O").length : Rat)) = 32 / 100
  rw [show (defGroup scenarioPlays sPlay1.season "D").map (·.epa) = [1/2, 1/5, -3/10, 0] from rfl,
      show ((olGroup scenarioPlays sPlay1.season "O").filter (·.qb_hit)).length = 1 from rfl,
      show (olGroup scenarioPlays sPlay1.season "O").length = 4 from rfl,
      show sPlay1.epa = 1/2 from rfl]
  norm_num [ratMean]

/-- C8: the offensive-line pressure rate carried by any play whose offense
has a context entry lies in [0,1], so the adjusted-epa denominator is at
least 1 and never zero; and the adjusted epa is missing exactly when one
of the play's context entries is missing. -/
theorem adj_epa_denominator_safe (plays : List Play) (p : Play) :
    (∀ o : OLMetrics, olLookup plays p = some o →
      0 ≤ o.pressure_rate ∧ o.pressure_rate ≤ 1
        ∧ 1 ≤ 1 + o.pressure_rate ∧ 1 + o.pressure_rate ≠ 0)
    ∧ (adj_epa plays p = none ↔ (defLookup plays p = none ∨ olLookup plays p = none)) := by
  constructor
  · intro o ho
    obtain ⟨team, _, hm⟩ := Option.bind_eq_some.mp ho
    unfold olMetricsFor at hm
    set g := olGroup plays p.season team with hg
    by_cases hemp : g.isEmpty
    · rw [if_pos hemp] at hm
      exact absurd hm (by simp)
    · rw [if_neg hemp] at hm
      have hlen : 0 < (g.length : Rat) := by
        have : g ≠ [] := fun h => hemp (by rw [h]; rfl)
        exact_mod_cast Nat.pos_of_ne_zero (fun h => this (List.length_eq_zero.mp h))
      have hrate : o.pressure_rate = ((g.filter (·.qb_hit)).length : Rat) / (g.length : Rat) := by
        cases Option.some.inj hm
        rfl
      have h0 : 0 ≤ o.pressure_rate := by
        rw [hrate]
        exact div_nonneg (Nat.cast_nonneg _) (Nat.cast_nonneg _)
      have h1 : o.pressure_rate ≤ 1 := by
        rw [hrate, div_le_one hlen]
        exact_mod_cast List.length_filter_le _ g
      refine ⟨h0, h1, by linarith, by positivity⟩
  · unfold adj_epa
    cases defLookup plays p <;> cases olLookup plays p <;> simp

/-! ### Shared membership lemmas about the normalizer and the group keys -/

/-- A play survives normalization iff it is a play of the table and its
passer is a named true quarterback. -/
theorem mem_normalizedPlays {plays : List Play} {p : Play} :
    p ∈ normalizedPlays plays ↔
      p ∈ plays ∧ ∃ n, p.passer_player_name = some n ∧ isTrueQB plays n = true := by
  unfold normalizedPlays
  rw [List.mem_filter]
  constructor
  · rintro ⟨hm, hc⟩
    refine ⟨hm, ?_⟩
    cases h : p.passer_player_name with
    | none => rw [h] at hc; exact absurd hc (by simp)
    | some n => rw [h] at hc; exact ⟨n, rfl, hc⟩
  · rintro ⟨hm, n, hn, ht⟩
    exact ⟨hm, by rw [hn]; exact ht⟩

/-- Membership in `true_qbs` unfolded: some play of the passer lies in a
`(season, passer)` group of at least `min_dropbacks` plays. -/
theorem isTrueQB_iff {plays : List Play} {n : String} :
    isTrueQB plays n = true ↔
      ∃ p ∈ plays, p.passer_player_name = some n
        ∧ min_dropbacks ≤ qbDropbackCount plays p.season n := by
  unfold isTrueQB
  rw [List.any_eq_true]
  simp only [Bool.and_eq_true, beq_iff_eq, decide_eq_true_eq]

/-- The group keys of a play table are exactly the `(season, passer)`
pairs realized by a play with a named passer. -/
theorem mem_seasonPasserKeys {l : List Play} {k : Int × String} :
    k ∈ seasonPasserKeys l ↔
      ∃ p ∈ l, p.season = k.1 ∧ p.passer_player_name = some k.2 := by
  unfold seasonPasserKeys
  rw [List.mem_dedup, List.mem_filterMap]
  constructor
  · rintro ⟨p, hp, hmap⟩
    obtain ⟨n, hn, hk⟩ := Option.map_eq_some'.mp hmap
    refine ⟨p, hp, ?_, ?_⟩
    · rw [← hk]
    · rw [hn, ← hk]
  · rintro ⟨p, hp, hs, hn⟩
    refine ⟨p, hp, ?_⟩
    rw [hn, Option.map_some', hs]

/-- Counting a Bool partition of a filtered list. -/
theorem length_filter_partition {α : Type} (P Q : α → Bool) (l : List α) :
    (l.filter P).length
      = (l.filter (fun a => P a && Q a)).length
        + (l.filter (fun a => P a && !Q a)).length := by
  induction l with
  | nil => rfl
  | cons a t ih =>
    by_cases hP : P a
    · by_cases hQ : Q a <;>
        simp [List.filter_cons, hP, hQ, ih] <;> omega
    · simp [List.filter_cons, hP, ih]

/-- C1 counterexample: in a 151-play season by passer A where one play has
a null defensive team, the left join finds no defensive context for that
play, yet the qualification count is 151, not the 150 plays that carry
defined context — the context-less play is not excluded from the
qualification counting. -/
theorem qual_count_counterexample :
    defLookup (noCtxPlay :: season150) noCtxPlay = none
      ∧ qbDropbackCount (noCtxPlay :: season150) 2023 "A" = 151
      ∧ specQualCount (noCtxPlay :: season150) 2023 "A" = 150 := by
  refine ⟨rfl, by decide, by decide⟩

/-- C1 (amended): the per-(season, passer) qualification count counts every
play of the passer: it equals the count of the passer's plays with defined
context values plus the count of those with a missing context entry (the
latter are not excluded). -/
theorem qual_count_amended (plays : List Play) (season : Int) (name : String) :
    qbDropbackCount plays season name
      = specQualCount plays season name
        + (plays.filter (fun p =>
            p.season == season && p.passer_player_name == some name
              && !((defLookup plays p).isSome && (olLookup plays p).isSome))).length := by
  unfold qbDropbackCount specQualCount
  have h := length_filter_partition
    (fun p => p.season == season && p.passer_player_name == some name)
    (fun p => (defLookup plays p).isSome && (olLookup plays p).isSome) plays
  rw [h]
  congr 1
  apply congrArg List.length
  apply List.filter_congr
  intro p _
  simp [Bool.and_assoc]

/-- The season column of a summary row is its group key's season. -/
theorem mkSummary_season (plays ntab : List Play) (k : Int × String) :
    (mkSummary plays ntab k).season = k.1 := rfl

/-- The passer column of a summary row is its group key's passer. -/
theorem mkSummary_passer (plays ntab : List Play) (k : Int × String) :
    (mkSummary plays ntab k).passer_player_name = k.2 := rfl

/-- C4: on single-season input, every row of the season-EPA summary has at
least 200 dropbacks and names a passer whose qualification count is at
least 150, and every play of the normalized table belongs to a passer with
qualification count at least 150 (so the summary's quarterbacks are a
subset of the qualified ones). -/
theorem summary_thresholds (plays : List Play) (szn : Int) (rows : List QBSummary)
    (hs : ∀ p ∈ plays, p.season = szn)
    (hr : fetch_all_qb_pbp_epa plays = .ok rows) :
    (∀ r ∈ rows, 200 ≤ r.dropbacks
      ∧ 150 ≤ qbDropbackCount plays r.season r.passer_player_name)
    ∧ ∀ p ∈ normalizedPlays plays,
        ∃ n, p.passer_player_name = some n ∧ 150 ≤ qbDropbackCount plays p.season n := by
  have hnorm : ∀ p ∈ normalizedPlays plays,
      ∃ n, p.passer_player_name = some n ∧ 150 ≤ qbDropbackCount plays p.season n := by
    intro p hp
    obtain ⟨hpm, n, hn, ht⟩ := mem_normalizedPlays.mp hp
    obtain ⟨q, hq, hqn, hcount⟩ := isTrueQB_iff.mp ht
    refine ⟨n, hn, ?_⟩
    rw [hs p hpm, ← hs q hq]
    exact hcount
  refine ⟨?_, hnorm⟩
  intro r hrm
  unfold fetch_all_qb_pbp_epa at hr
  by_cases hemp : (normalizedPlays plays).isEmpty
  · rw [if_pos hemp] at hr
    exact absurd hr (by simp)
  · rw [if_neg hemp] at hr
    obtain rfl := Except.ok.inj hr
    rw [List.mem_filter] at hrm
    obtain ⟨hmap, hge⟩ := hrm
    rw [List.mem_map] at hmap
    obtain ⟨k, hk, hkr⟩ := hmap
    obtain ⟨p, hpn, hps, hpp⟩ := mem_seasonPasserKeys.mp hk
    obtain ⟨n, hn, hcount⟩ := hnorm p hpn
    have hnk : n = k.2 := by
      rw [hn] at hpp
      exact Option.some.inj hpp
    subst hkr
    refine ⟨by simpa using hge, ?_⟩
    rw [mkSummary_season, mkSummary_passer, ← hnk, ← hps]
    exact hcount

/-- C4 witness data: the rows the season-EPA view returns for the
200-dropback season. -/
def season200Rows : List QBSummary :=
  (fetch_all_qb_pbp_epa season200).toOption.getD []

/-- C4 witness: the thresholds hold on the concrete 200-dropback season. -/
theorem summary_thresholds_witness :
    (∀ r ∈ season200Rows, 200 ≤ r.dropbacks
      ∧ 150 ≤ qbDropbackCount season200 r.season r.passer_player_name)
    ∧ ∀ p ∈ normalizedPlays season200,
        ∃ n, p.passer_player_name = some n ∧ 150 ≤ qbDropbackCount season200 p.season n :=
  summary_thresholds season200 2023 season200Rows
    (fun p hp => by
      have h : p = basePlay := by simpa [season200, List.mem_replicate] using hp
      rw [h]
      rfl)
    rfl

/-- C5 counterexample: a 150-dropback season qualifies passer A (the
normalized table is nonempty, so no error is raised) yet the season-EPA
view returns an empty successful result, because the 200-dropback
retention filter empties it. -/
theorem no_data_counterexample :
    normalizedPlays season150 ≠ [] ∧ isTrueQB season150 "A" = true
      ∧ fetch_all_qb_pbp_epa season150 = .ok [] := by
  refine ⟨by decide, by decide, rfl⟩

/-- C5 (amended): the season-EPA view raises exactly when the normalized
table is empty — equivalently when no play's passer qualifies, in
particular for an empty season — but it can also return an empty
successful result (when no qualified quarterback reaches 200 dropbacks);
the Context Metrics Builder maps an empty season to empty context
mappings without error. -/
theorem no_data_error_iff (plays : List Play) :
    ((∃ e, fetch_all_qb_pbp_epa plays = .error e) ↔ normalizedPlays plays = [])
    ∧ (normalizedPlays plays = [] ↔
        ∀ p ∈ plays, ∀ n, p.passer_player_name = some n → isTrueQB plays n = false)
    ∧ (∀ szn team, defMetricsFor [] szn team = none ∧ olMetricsFor [] szn team = none) := by
  refine ⟨?_, ?_, fun szn team => ⟨rfl, rfl⟩⟩
  · unfold fetch_all_qb_pbp_epa
    by_cases hemp : (normalizedPlays plays).isEmpty
    · rw [if_pos hemp]
      simp [List.isEmpty_iff.mp hemp]
    · rw [if_neg hemp]
      constructor
      · rintro ⟨e, he⟩
        exact absurd he (by simp)
      · intro h
        exact absurd h (by simpa [List.isEmpty_iff] using hemp)
  · unfold normalizedPlays
    rw [List.filter_eq_nil_iff]
    constructor
    · intro h p hp n hn
      have hthis := h p hp
      rw [hn] at hthis
      simpa using hthis
    · intro h p hp
      cases hn : p.passer_player_name with
      | none => simp
      | some n => simpa using h p hp n hn

/-! ### The clutch/non-clutch split of home.py -/

/-- Decompose membership in home.py's summary table. -/
theorem mem_fetch_qb_adj_data {plays : List Play} {r : QBAdjRow}
    (hr : r ∈ fetch_qb_adj_data plays) :
    ∃ k ∈ seasonPasserKeys (normalizedPlays plays),
      r = mkAdjRow plays (normalizedPlays plays) k ∧ 200 ≤ r.base.dropbacks := by
  unfold fetch_qb_adj_data at hr
  rw [List.mem_filter] at hr
  obtain ⟨hmap, hge⟩ := hr
  rw [List.mem_map] at hmap
  obtain ⟨k, hk, hkr⟩ := hmap
  exact ⟨k, hk, hkr.symm, by simpa using hge⟩

/-- The passer column of home.py's row is its group key's passer. -/
theorem mkAdjRow_passer (plays ntab : List Play) (k : Int × String) :
    (mkAdjRow plays ntab k).base.passer_player_name = k.2 := rfl

/-- The clutch mean column left-joined into home.py's row. -/
theorem mkAdjRow_clutch_avg (plays ntab : List Play) (k : Int × String) :
    (mkAdjRow plays ntab k).clutch_avg_adj_epa
      = (clutchStats plays ntab k.2).bind (·.avg) := rfl

/-- The clutch total column left-joined into home.py's row. -/
theorem mkAdjRow_clutch_total (plays ntab : List Play) (k : Int × String) :
    (mkAdjRow plays ntab k).clutch_total_adj_epa
      = (clutchStats plays ntab k.2).map (·.total) := rfl

/-- The clutch count column left-joined into home.py's row. -/
theorem mkAdjRow_clutch_count (plays ntab : List Play) (k : Int × String) :
    (mkAdjRow plays ntab k).clutch_plays
      = (clutchStats plays ntab k.2).map (·.count) := rfl

/-- The non-clutch mean column left-joined into home.py's row. -/
theorem mkAdjRow_non_clutch_avg (plays ntab : List Play) (k : Int × String) :
    (mkAdjRow plays ntab k).non_clutch_avg_adj_epa
      = (nonClutchStats plays ntab k.2).bind (·.avg) := rfl

/-- The non-clutch total column left-joined into home.py's row. -/
theorem mkAdjRow_non_clutch_total (plays ntab : List Play) (k : Int × String) :
    (mkAdjRow plays ntab k).non_clutch_total_adj_epa
      = (nonClutchStats plays ntab k.2).map (·.total) := rfl

/-- The non-clutch count column left-joined into home.py's row. -/
theorem mkAdjRow_non_clutch_count (plays ntab : List Play) (k : Int × String) :
    (mkAdjRow plays ntab k).non_clutch_plays
      = (nonClutchStats plays ntab k.2).map (·.count) := rfl

/-- The dropback count of a summary row is its group's size. -/
theorem mkSummary_dropbacks (plays ntab : List Play) (k : Int × String) :
    (mkSummary plays ntab k).dropbacks = (passerGroup ntab k.1 k.2).length := rfl

/-- An empty clutch partition yields no aggregate (left-join missing). -/
theorem clutchStats_eq_none (plays : List Play) {ntab : List Play} {n : String}
    (h : clutchGroup ntab n = []) : clutchStats plays ntab n = none := by
  unfold clutchStats
  rw [h]
  rfl

/-- A nonempty clutch partition yields its aggregate. -/
theorem clutchStats_eq_some (plays : List Play) {ntab : List Play} {n : String}
    (h : clutchGroup ntab n ≠ []) :
    clutchStats plays ntab n
      = some (partitionAgg ((clutchGroup ntab n).map (adj_epa plays))) := by
  unfold clutchStats
  rw [if_neg (by simpa [List.isEmpty_iff] using h)]

/-- An empty non-clutch partition yields no aggregate. -/
theorem nonClutchStats_eq_none (plays : List Play) {ntab : List Play} {n : String}
    (h : nonClutchGroup ntab n = []) : nonClutchStats plays ntab n = none := by
  unfold nonClutchStats
  rw [h]
  rfl

/-- A nonempty non-clutch partition yields its aggregate. -/
theorem nonClutchStats_eq_some (plays : List Play) {ntab : List Play} {n : String}
    (h : nonClutchGroup ntab n ≠ []) :
    nonClutchStats plays ntab n
      = some (partitionAgg ((nonClutchGroup ntab n).map (adj_epa plays))) := by
  unfold nonClutchStats
  rw [if_neg (by simpa [List.isEmpty_iff] using h)]

/-- The aggregate of the nullable `adj_epa` column of a group, expressed
through the group's defined adjusted-epa values. -/
theorem partitionAgg_fields (plays g : List Play) :
    (partitionAgg (g.map (adj_epa plays))).count = (g.filterMap (adj_epa plays)).length
    ∧ (partitionAgg (g.map (adj_epa plays))).total = (g.filterMap (adj_epa plays)).sum
    ∧ (partitionAgg (g.map (adj_epa plays))).avg
        = (if g.filterMap (adj_epa plays) = [] then none
           else some (ratMean (g.filterMap (adj_epa plays)))) := by
  have h : (g.map (adj_epa plays)).filterMap id = g.filterMap (adj_epa plays) := by
    rw [List.filterMap_map]
    simp [Function.comp_def]
  unfold partitionAgg
  rw [h]
  refine ⟨rfl, rfl, ?_⟩
  by_cases he : g.filterMap (adj_epa plays) = [] <;>
    simp [he, List.isEmpty_iff]

/-- C6: each retained row of home.py's summary carries the clutch and
non-clutch mean/total/count of adjusted epa of the passer's two partitions
and their difference, obtained by a left join: a passer with no clutch
play gets missing clutch fields (never zero), symmetrically for
non-clutch; a nonempty partition contributes the mean, sum and count of
its defined adjusted-epa values, and the difference column is the
missing-propagating difference of the two means. -/
theorem clutch_split_left_join (plays : List Play) (r : QBAdjRow)
    (cg ng : List Play) (cvals nvals : List Rat)
    (hr : r ∈ fetch_qb_adj_data plays)
    (hcg : cg = clutchGroup (normalizedPlays plays) r.base.passer_player_name)
    (hng : ng = nonClutchGroup (normalizedPlays plays) r.base.passer_player_name)
    (hcv : cvals = cg.filterMap (adj_epa plays))
    (hnv : nvals = ng.filterMap (adj_epa plays)) :
    (cg = [] → r.clutch_avg_adj_epa = none ∧ r.clutch_total_adj_epa = none
      ∧ r.clutch_plays = none)
    ∧ (cg ≠ [] → r.clutch_plays = some cvals.length
        ∧ r.clutch_total_adj_epa = some cvals.sum
        ∧ r.clutch_avg_adj_epa = (if cvals = [] then none else some (ratMean cvals)))
    ∧ (ng = [] → r.non_clutch_avg_adj_epa = none ∧ r.non_clutch_total_adj_epa = none
      ∧ r.non_clutch_plays = none)
    ∧ (ng ≠ [] → r.non_clutch_plays = some nvals.length
        ∧ r.non_clutch_total_adj_epa = some nvals.sum
        ∧ r.non_clutch_avg_adj_epa = (if nvals = [] then none else some (ratMean nvals)))
    ∧ r.clutch_vs_non_clutch_adj_diff
        = (match r.clutch_avg_adj_epa, r.non_clutch_avg_adj_epa with
           | some a, some b => some (a - b)
           | _, _ => none) := by
  obtain ⟨k, hk, hkr, hge⟩ := mem_fetch_qb_adj_data hr
  subst hkr
  rw [mkAdjRow_passer] at hcg hng
  subst hcg hng hcv hnv
  refine ⟨?_, ?_, ?_, ?_, rfl⟩
  · intro hce
    rw [mkAdjRow_clutch_avg, mkAdjRow_clutch_total, mkAdjRow_clutch_count,
        clutchStats_eq_none plays hce]
    exact ⟨rfl, rfl, rfl⟩
  · intro hce
    obtain ⟨h1, h2, h3⟩ := partitionAgg_fields plays
      (clutchGroup (normalizedPlays plays) k.2)
    rw [mkAdjRow_clutch_count, mkAdjRow_clutch_total, mkAdjRow_clutch_avg,
        clutchStats_eq_some plays hce]
    refine ⟨?_, ?_, ?_⟩ <;>
      simp only [Option.map_some', Option.some_bind, h1, h2, h3]
  · intro hne
    rw [mkAdjRow_non_clutch_avg, mkAdjRow_non_clutch_total, mkAdjRow_non_clutch_count,
        nonClutchStats_eq_none plays hne]
    exact ⟨rfl, rfl, rfl⟩
  · intro hne
    obtain ⟨h1, h2, h3⟩ := partitionAgg_fields plays
      (nonClutchGroup (normalizedPlays plays) k.2)
    rw [mkAdjRow_non_clutch_count, mkAdjRow_non_clutch_total, mkAdjRow_non_clutch_avg,
        nonClutchStats_eq_some plays hne]
    refine ⟨?_, ?_, ?_⟩ <;>
      simp only [Option.map_some', Option.some_bind, h1, h2, h3]

/-- The single row home.py produces for the 200-dropback season. -/
def season200Row : QBAdjRow :=
  mkAdjRow season200 (normalizedPlays season200) (2023, "A")

/-- That row is the summary's row. -/
theorem season200Row_mem : season200Row ∈ fetch_qb_adj_data season200 := by
  rw [show fetch_qb_adj_data season200 = [season200Row] from rfl]
  exact List.mem_singleton_self _

/-- C6 witness: passer A has no clutch play in the 200-dropback season, so
the retained row's clutch fields are all missing (not zero). -/
theorem clutch_split_left_join_witness :
    season200Row.clutch_avg_adj_epa = none ∧ season200Row.clutch_total_adj_epa = none
      ∧ season200Row.clutch_plays = none :=
  (clutch_split_left_join season200 season200Row
    (clutchGroup (normalizedPlays season200) season200Row.base.passer_player_name)
    (nonClutchGroup (normalizedPlays season200) season200Row.base.passer_player_name)
    ((clutchGroup (normalizedPlays season200)
        season200Row.base.passer_player_name).filterMap (adj_epa season200))
    ((nonClutchGroup (normalizedPlays season200)
        season200Row.base.passer_player_name).filterMap (adj_epa season200))
    season200Row_mem rfl rfl rfl rfl).1 rfl

/-! ### Clutch and non-clutch counts (C7) -/

/-- Counting the defined values of a nullable column across the Bool
partition of a list. -/
theorem length_filterMap_partition {α β : Type} (f : α → Option β) (q : α → Bool)
    (l : List α) :
    ((l.filter q).filterMap f).length + ((l.filter (fun a => !q a)).filterMap f).length
      = (l.filterMap f).length := by
  induction l with
  | nil => rfl
  | cons a t ih =>
    by_cases hq : q a <;>
      cases hfa : f a <;>
        simp [List.filter_cons, hq, List.filterMap_cons, hfa] <;>
          omega

/-- A nullable column with no missing value has as many defined values as
rows. -/
theorem length_filterMap_of_isSome {α β : Type} (f : α → Option β) (l : List α)
    (h : ∀ a ∈ l, (f a).isSome) : (l.filterMap f).length = l.length := by
  induction l with
  | nil => rfl
  | cons a t ih =>
    obtain ⟨b, hb⟩ := Option.isSome_iff_exists.mp (h a (List.mem_cons_self a t))
    rw [List.filterMap_cons, hb, List.length_cons,
      ih (fun x hx => h x (List.mem_cons_of_mem a hx))]
    rfl

/-- A 200-dropback season by passer A with one clutch play and one play
with no defensive-context entry (null defteam). -/
def mixedSeason : List Play := clutchPlay :: noCtxPlay :: List.replicate 198 basePlay

/-- The single row home.py produces for `mixedSeason`. -/
def mixedRow : QBAdjRow :=
  mkAdjRow mixedSeason (normalizedPlays mixedSeason) (2023, "A")

/-- C7 counterexample: in `mixedSeason` passer A's row has 200 dropbacks,
a defined clutch count of 1 and a defined non-clutch count of 198 — the
partition counts skip the play whose adjusted epa is missing, so their sum
is 199, not the 200 total dropbacks. -/
theorem clutch_count_counterexample :
    mixedRow ∈ fetch_qb_adj_data mixedSeason
      ∧ mixedRow.base.dropbacks = 200
      ∧ mixedRow.clutch_plays = some 1
      ∧ mixedRow.non_clutch_plays = some 198
      ∧ 1 + 198 ≠ 200 := by
  refine ⟨?_, rfl, rfl, rfl, by decide⟩
  rw [show fetch_qb_adj_data mixedSeason = [mixedRow] from rfl]
  exact List.mem_singleton_self _

/-- C7 (amended): when both partition counts of a retained row are
defined, their sum is the number of the passer's normalized plays with a
defined adjusted epa; it equals the row's total dropback count whenever
every normalized play carries a defined adjusted epa (single-season
input). -/
theorem clutch_counts_amended (plays : List Play) (szn : Int) (r : QBAdjRow) (c nc : Nat)
    (hs : ∀ p ∈ plays, p.season = szn)
    (hr : r ∈ fetch_qb_adj_data plays)
    (hc : r.clutch_plays = some c) (hnc : r.non_clutch_plays = some nc) :
    c + nc = ((passerAll (normalizedPlays plays) r.base.passer_player_name).filterMap
        (adj_epa plays)).length
    ∧ ((∀ p ∈ normalizedPlays plays, (adj_epa plays p).isSome) →
        c + nc = r.base.dropbacks) := by
  obtain ⟨k, hk, hkr, hge⟩ := mem_fetch_qb_adj_data hr
  subst hkr
  rw [mkAdjRow_passer]
  set ntab := normalizedPlays plays with hntab
  rw [mkAdjRow_clutch_count] at hc
  rw [mkAdjRow_non_clutch_count] at hnc
  obtain ⟨ca, hca, hcac⟩ := Option.map_eq_some'.mp hc
  obtain ⟨nca, hnca, hncac⟩ := Option.map_eq_some'.mp hnc
  have hcne : clutchGroup ntab k.2 ≠ [] := by
    intro hnil
    rw [clutchStats_eq_none plays hnil] at hca
    exact Option.noConfusion hca
  have hncne : nonClutchGroup ntab k.2 ≠ [] := by
    intro hnil
    rw [nonClutchStats_eq_none plays hnil] at hnca
    exact Option.noConfusion hnca
  rw [clutchStats_eq_some plays hcne] at hca
  rw [nonClutchStats_eq_some plays hncne] at hnca
  obtain rfl := Option.some.inj hca
  obtain rfl := Option.some.inj hnca
  rw [(partitionAgg_fields plays (clutchGroup ntab k.2)).1] at hcac
  rw [(partitionAgg_fields plays (nonClutchGroup ntab k.2)).1] at hncac
  have hsum : c + nc = ((passerAll ntab k.2).filterMap (adj_epa plays)).length := by
    rw [← hcac, ← hncac]
    exact length_filterMap_partition (adj_epa plays) clutch_situation (passerAll ntab k.2)
  refine ⟨hsum, ?_⟩
  intro hdef
  rw [hsum, show (mkAdjRow plays ntab k).base = mkSummary plays ntab k from rfl,
    mkSummary_dropbacks]
  have hall : ∀ a ∈ passerAll ntab k.2, (adj_epa plays a).isSome := by
    intro a ha
    exact hdef a (List.mem_filter.mp ha).1
  rw [length_filterMap_of_isSome (adj_epa plays) _ hall]
  have hgrp : passerGroup ntab k.1 k.2 = passerAll ntab k.2 := by
    apply List.filter_congr
    intro p hp
    have hps : p.season = szn := hs p (List.mem_filter.mp hp).1
    have hks : k.1 = szn := by
      obtain ⟨q, hq, hqs, _⟩ := mem_seasonPasserKeys.mp hk
      rw [← hqs]
      exact hs q (List.mem_filter.mp hq).1
    rw [show (p.season == k.1) = true from beq_iff_eq.mpr (by rw [hps, hks]),
      Bool.true_and]
  rw [hgrp]

/-- A 200-dropback season by passer A with one clutch play and full
context coverage. -/
def clutchSeason : List Play := clutchPlay :: List.replicate 199 basePlay

/-- The single row home.py produces for `clutchSeason`. -/
def clutchSeasonRow : QBAdjRow :=
  mkAdjRow clutchSeason (normalizedPlays clutchSeason) (2023, "A")

/-- C7 (amended) witness: on `clutchSeason` the defined counts 1 and 199
sum to the defined-adjusted-epa count, and to the row's 200 dropbacks. -/
theorem clutch_counts_amended_witness :
    1 + 199 = ((passerAll (normalizedPlays clutchSeason)
        clutchSeasonRow.base.passer_player_name).filterMap (adj_epa clutchSeason)).length
    ∧ ((∀ p ∈ normalizedPlays clutchSeason, (adj_epa clutchSeason p).isSome) →
        1 + 199 = clutchSeasonRow.base.dropbacks) :=
  clutch_counts_amended clutchSeason 2023 clutchSeasonRow 1 199
    (by decide)
    (by rw [show fetch_qb_adj_data clutchSeason = [clutchSeasonRow] from rfl]
        exact List.mem_singleton_self _)
    rfl rfl

/-! ### The quarterback-name argument (C9) and the totals view (C10) -/

/-- A 150-dropback passer B sharing the season with passer A. -/
def playB : Play := { basePlay with passer_player_name := some "B" }

/-- A season with two qualified passers, A and B. -/
def twoQBSeason : List Play := List.replicate 150 basePlay ++ List.replicate 150 playB

/-- C9 counterexample: with two qualified quarterbacks in the season, the
advanced-stats entry point returns different rows for the name "A" than
for the name "B" — the quarterback-name argument filters rows out rather
than only highlighting. -/
theorem qb_name_filters_counterexample :
    (fetch_adv_qb_pbp_stats twoQBSeason "A").map (List.map (·.passer_player_name))
        = .ok ["A"]
      ∧ (fetch_adv_qb_pbp_stats twoQBSeason "B").map (List.map (·.passer_player_name))
        = .ok ["B"]
      ∧ "A" ≠ "B" := by
  refine ⟨rfl, rfl, by decide⟩

/-- C9 (amended): the chart entry point uses the optional quarterback name
only for the highlight opacity — the categories and values of its traces
are identical for every choice of the name — while the advanced-stats
entry point does use its quarterback-name argument to filter: every
returned row names exactly the requested quarterback. -/
theorem qb_name_highlight_only (plays : List Play) (q1 q2 : Option String) (name : String) :
    ((make_all_qbs_epa_adj_chart plays q1).map (List.map (fun t => (t.ys, t.xs)))
      = (make_all_qbs_epa_adj_chart plays q2).map (List.map (fun t => (t.ys, t.xs))))
    ∧ (∀ rows, fetch_adv_qb_pbp_stats plays name = .ok rows →
        ∀ r ∈ rows, r.passer_player_name = name) := by
  constructor
  · unfold make_all_qbs_epa_adj_chart
    cases h : fetch_all_qb_pbp_epa plays <;> rfl
  · intro rows hrows r hrm
    unfold fetch_adv_qb_pbp_stats at hrows
    by_cases hemp : (normalizedPlays plays).isEmpty
    · rw [if_pos hemp] at hrows
      exact absurd hrows (by simp)
    · rw [if_neg hemp] at hrows
      obtain rfl := Except.ok.inj hrows
      rw [List.mem_filter] at hrm
      exact beq_iff_eq.mp hrm.2

/-- The season column of a totals row is its group key's season. -/
theorem mkTotalsRow_season (ntab : List Play) (k : Int × String) :
    (mkTotalsRow ntab k).season = k.1 := rfl

/-- The passer column of a totals row is its group key's passer. -/
theorem mkTotalsRow_passer (ntab : List Play) (k : Int × String) :
    (mkTotalsRow ntab k).passer_player_name = k.2 := rfl

/-- C10: the season-totals view performs no emptiness check and no
200-dropback filter: a season with an empty normalized table yields an
empty table successfully, and in general the view has exactly one row per
(season, passer) group of the normalized table, however small; the
season-EPA and advanced-stats views, in contrast, raise on an empty
season. -/
theorem season_totals_no_checks (plays : List Play) :
    (normalizedPlays plays = [] → fetch_all_qb_season_totals plays = [])
    ∧ (∀ s n, (∃ r ∈ fetch_all_qb_season_totals plays,
          r.season = s ∧ r.passer_player_name = n)
        ↔ ∃ p ∈ normalizedPlays plays, p.season = s ∧ p.passer_player_name = some n)
    ∧ (∃ e, fetch_all_qb_pbp_epa [] = .error e)
    ∧ (∀ qb, ∃ e, fetch_adv_qb_pbp_stats [] qb = .error e) := by
  refine ⟨?_, ?_, ⟨_, rfl⟩, fun qb => ⟨_, rfl⟩⟩
  · intro h
    unfold fetch_all_qb_season_totals
    rw [h]
    rfl
  · intro s n
    constructor
    · rintro ⟨r, hrm, hrs, hrn⟩
      unfold fetch_all_qb_season_totals at hrm
      rw [List.mem_map] at hrm
      obtain ⟨k, hk, hkr⟩ := hrm
      obtain ⟨p, hp, hps, hpn⟩ := mem_seasonPasserKeys.mp hk
      subst hkr
      rw [mkTotalsRow_season] at hrs
      rw [mkTotalsRow_passer] at hrn
      exact ⟨p, hp, by rw [hps, hrs], by rw [hpn, hrn]⟩
    · rintro ⟨p, hp, hps, hpn⟩
      refine ⟨mkTotalsRow (normalizedPlays plays) (s, n), ?_, rfl, rfl⟩
      unfold fetch_all_qb_season_totals
      rw [List.mem_map]
      exact ⟨(s, n), mem_seasonPasserKeys.mpr ⟨p, hp, hps, hpn⟩, rfl⟩

end QBQ
